import Mathlib

/-!
Verification of the multi-agent orchestration gateway.

This file gives a shallow embedding of the orchestrator core
(registry, routing engine, task transport, context manager and
facade) as executable Lean definitions, translated from the
Python sources under src/orchestrator/app, and proves properties
of those definitions.

Modelling conventions:
  - Python dictionaries (which preserve insertion order) are
    association lists of type List (String × _) together with the
    operations lookupA / setA / eraseA below.
  - Wall-clock instants are abstract Nat ticks; the session
    timeout is a Nat in the same units.
  - Floating point scores are embedded as rationals; the scoring
    formulas are structural sums of the constant weights, so the
    rational embedding preserves every comparison the claims are
    about.
  - The regular expressions used by the context manager are
    word-boundary searches over ASCII text; they are embedded as
    explicit character-list scans with the same boundary rule
    (a word character is an alphanumeric character or the
    underscore).
  - Network effects are oracle parameters: the result of the
    message send and the sequence of poll replies are inputs, and
    the facade records in the result whether the transport was
    consulted at all.
-/

set_option allowUnsafeReducibility true

attribute [semireducible] Rat.mul Rat.add Rat.sub Rat.inv Rat.ofScientific

/-! ## Association lists standing for Python dictionaries -/

def lookupA {α : Type} : List (String × α) → String → Option α
  | [], _ => none
  | p :: rest, k => if p.1 = k then some p.2 else lookupA rest k

def setA {α : Type} : List (String × α) → String → α → List (String × α)
  | [], k, v => [(k, v)]
  | p :: rest, k, v => if p.1 = k then (k, v) :: rest else p :: setA rest k v

def eraseA {α : Type} (l : List (String × α)) (k : String) : List (String × α) :=
  l.filter (fun p => p.1 ≠ k)

/-! ## String helpers mirroring the Python primitives used by the source -/

def lowerStr (s : String) : String :=
  String.mk (s.toList.map Char.toLower)

/-- Case sensitive: does the first list start with the second? -/
def startsWithL : List Char → List Char → Bool
  | _, [] => true
  | [], _ :: _ => false
  | c :: cs, p :: ps => c = p && startsWithL cs ps

/-- Substring containment on character lists (the Python `in` operator). -/
def containsSub : List Char → List Char → Bool
  | [], pat => pat.isEmpty
  | c :: cs, pat => startsWithL (c :: cs) pat || containsSub cs pat

/-- The Python substring test `pat in s`. -/
def strContains (s pat : String) : Bool :=
  containsSub s.toList pat.toList

/-- The Python `str.startswith` test. -/
def strStartsWith (s pre : String) : Bool :=
  startsWithL s.toList pre.toList

/-- Python `str.split()` with no argument: whitespace split, empties dropped. -/
def wordsOfAux : List Char → List Char → List String
  | [], acc => if acc.isEmpty then [] else [String.mk acc.reverse]
  | c :: cs, acc =>
    if c.isWhitespace then
      if acc.isEmpty then wordsOfAux cs [] else String.mk acc.reverse :: wordsOfAux cs []
    else wordsOfAux cs (c :: acc)

def wordsOf (s : String) : List String :=
  wordsOfAux s.toList []

/-! ## Word-boundary regular-expression scans

The context manager uses Python regexes of two shapes: a single
token wrapped in word boundaries, and an alternation of such
tokens.  Every token involved starts and ends with a word
character, so the boundary conditions reduce to: the character
before the match (if any) is not a word character, and neither is
the character after it. -/

def isWordChar (c : Char) : Bool :=
  c.isAlphanum || c = '_'

def lowEq (a b : Char) : Bool :=
  a.toLower = b.toLower

/-- Case insensitive: does the first list start with the second? -/
def startsWithCI : List Char → List Char → Bool
  | _, [] => true
  | [], _ :: _ => false
  | c :: cs, p :: ps => lowEq c p && startsWithCI cs ps

def boundaryOk : Option Char → Bool
  | none => true
  | some c => !isWordChar c

/-- Fuel-indexed scan for a whole-word, case-insensitive occurrence of
`pat` in the text; `prev` is the character just before the current
position. -/
def containsWWFuel (pat : List Char) : Nat → Option Char → List Char → Bool
  | 0, _, _ => false
  | _ + 1, _, [] => false
  | fuel + 1, prev, c :: cs =>
    (!pat.isEmpty && startsWithCI (c :: cs) pat && boundaryOk prev
        && boundaryOk ((c :: cs).drop pat.length).head?)
      || containsWWFuel pat fuel (some c) cs

/-- The Python test `re.search(r\x27\b<pat>\b\x27, s) is not None` for a
pattern token that starts and ends with word characters. -/
def containsWW (pat s : String) : Bool :=
  containsWWFuel pat.toList (s.toList.length + 1) none s.toList

/-- Fuel-indexed whole-word, case-insensitive replacement of every
occurrence of `pat` by `repl`, scanning left to right and continuing
after each replacement (the semantics of `re.sub` with IGNORECASE for
a pattern wrapped in word boundaries).  After a replacement the
previous character is the last character of the matched text; every
pattern used ends in a word character, so the underscore stand-in has
the same boundary behaviour. -/
def substWWFuel (pat repl : List Char) : Nat → Option Char → List Char → List Char
  | 0, _, s => s
  | _ + 1, _, [] => []
  | fuel + 1, prev, c :: cs =>
    if !pat.isEmpty && startsWithCI (c :: cs) pat && boundaryOk prev
        && boundaryOk ((c :: cs).drop pat.length).head? then
      repl ++ substWWFuel pat repl fuel (some '_') ((c :: cs).drop pat.length)
    else
      c :: substWWFuel pat repl fuel (some c) cs

def substWW (pat repl s : String) : String :=
  String.mk (substWWFuel pat.toList repl.toList (s.toList.length + 1) none s.toList)

/-- First alternative of the alternation that matches at this position
with both word boundaries; returns the matched text as it appears in
the input (the behaviour of `re.findall` with a single capture group). -/
def tryAlternatives (prev : Option Char) (s : List Char) : List (List Char) → Option (List Char)
  | [] => none
  | alt :: rest =>
    if !alt.isEmpty && startsWithCI s alt && boundaryOk prev
        && boundaryOk (s.drop alt.length).head? then
      some (s.take alt.length)
    else
      tryAlternatives prev s rest

def findFirstWWFuel (alts : List (List Char)) : Nat → Option Char → List Char → Option String
  | 0, _, _ => none
  | _ + 1, _, [] => none
  | fuel + 1, prev, c :: cs =>
    match tryAlternatives prev (c :: cs) alts with
    | some m => some (String.mk m)
    | none => findFirstWWFuel alts fuel (some c) cs

/-- The first match, in textual order, of a whole-word alternation
(case insensitive), as returned in position 0 of `re.findall`. -/
def findFirstWW (alts : List String) (s : String) : Option String :=
  findFirstWWFuel (alts.map String.toList) (s.toList.length + 1) none s.toList

/-! ## Context manager data model (src/orchestrator/app/context_manager.py) -/

structure ConversationTurn where
  timestamp : Nat
  user_query : String
  agent_name : String
  agent_response : String
  routing_confidence : Rat
deriving Repr, DecidableEq

structure ConversationSession where
  session_id : String
  user_id : Option String
  created_at : Nat
  last_activity : Nat
  turns : List ConversationTurn
  context_summary : Option String
  active_topics : List String
deriving Repr, DecidableEq

structure CtxState where
  sessions : List (String × ConversationSession)
  session_timeout : Nat
deriving Repr, DecidableEq

/-- The reference tokens of OrchestratorContextManager.pronoun_patterns,
each one searched with word boundaries. -/
def pronoun_patterns : List String :=
  ["it", "that", "this", "they", "them", "the above", "the previous", "the data"]

/-- Creation of a brand new session entry (the tail of
get_or_create_session).  `truthyId` is the supplied id when it is a
non-empty string; the Python expression `session_id or str(uuid.uuid4())`
falls back to the freshly minted v4 UUID `fresh` otherwise. -/
def createNewSession (ctx : CtxState) (truthyId : Option String) (user_id : Option String)
    (now : Nat) (fresh : String) : String × CtxState :=
  let newId := truthyId.getD fresh
  (newId,
    { ctx with
      sessions := setA ctx.sessions newId
        { session_id := newId, user_id := user_id, created_at := now,
          last_activity := now, turns := [], context_summary := none,
          active_topics := [] } })

/-- OrchestratorContextManager.get_or_create_session.  A supplied
non-empty id that is already a key updates last_activity and is
returned; otherwise a new session is stored under the supplied
non-empty id, or under the minted UUID `fresh` when the supplied id is
absent or empty. -/
def get_or_create_session (ctx : CtxState) (session_id user_id : Option String)
    (now : Nat) (fresh : String) : String × CtxState :=
  match session_id with
  | some sid =>
    if sid = "" then createNewSession ctx none user_id now fresh
    else
      match lookupA ctx.sessions sid with
      | some s =>
        (sid, { ctx with sessions := setA ctx.sessions sid { s with last_activity := now } })
      | none => createNewSession ctx (some sid) user_id now fresh
  | none => createNewSession ctx none user_id now fresh

/-- OrchestratorContextManager._update_active_topics: scan the
concatenated lowercased query and response for topic trigger words,
append unseen topics, and keep only the last five. -/
def update_active_topics (s : ConversationSession) (user_query agent_response : String) :
    ConversationSession :=
  let text := lowerStr (user_query ++ " " ++ agent_response)
  let weatherTopics :=
    if (["weather", "temperature", "winter", "summer", "rain", "snow"]).any
        (fun w => strContains text w) then ["weather"] else []
  let cityTopics :=
    ((["new york", "california", "chicago", "boston", "san francisco", "los angeles"]).filter
        (fun c => strContains text c)).map (fun c => "location:" ++ c)
  let reportTopics :=
    if (["report", "analysis", "chart", "graph", "visualization"]).any
        (fun w => strContains text w) then ["reporting"] else []
  let financeTopics :=
    if (["currency", "exchange", "dollar", "price", "market"]).any
        (fun w => strContains text w) then ["finance"] else []
  let topics := weatherTopics ++ cityTopics ++ reportTopics ++ financeTopics
  let grown := topics.foldl (fun acc t => if acc.contains t then acc else acc ++ [t])
    s.active_topics
  { s with active_topics := grown.drop (grown.length - 5) }

/-- OrchestratorContextManager.add_conversation_turn.  When the session
id is unknown it is first created through get_or_create_session, then
the turn is appended, last_activity refreshed and topics updated.
After the get_or_create step the key is always present except when the
supplied id is the empty string, where the Python code raises KeyError;
that unreachable branch returns the state untouched. -/
def add_conversation_turn (ctx : CtxState) (session_id user_query agent_name agent_response : String)
    (routing_confidence : Rat) (now : Nat) (fresh : String) : CtxState :=
  let ctx1 :=
    if (lookupA ctx.sessions session_id).isSome then ctx
    else (get_or_create_session ctx (some session_id) none now fresh).2
  match lookupA ctx1.sessions session_id with
  | none => ctx1
  | some s =>
    let turn : ConversationTurn :=
      { timestamp := now, user_query := user_query, agent_name := agent_name,
        agent_response := agent_response, routing_confidence := routing_confidence }
    let s1 := { s with turns := s.turns ++ [turn], last_activity := now }
    let s2 := update_active_topics s1 user_query agent_response
    { ctx1 with sessions := setA ctx1.sessions session_id s2 }

/-- OrchestratorContextManager.cleanup_expired_sessions: drop every
session strictly older than the timeout, returning the removed count. -/
def cleanup_expired_sessions (ctx : CtxState) (now : Nat) : Nat × CtxState :=
  let expired := ctx.sessions.filter
    (fun p => decide (ctx.session_timeout < now - p.2.last_activity))
  let kept := ctx.sessions.filter
    (fun p => !decide (ctx.session_timeout < now - p.2.last_activity))
  (expired.length, { ctx with sessions := kept })

/-- OrchestratorContextManager._extract_main_topic. -/
def extract_main_topic (query response : String) : String :=
  let locations := findFirstWW
    (["New York", "NYC", "California", "Chicago", "Boston", "San Francisco", "Los Angeles"]) query
  let weather_terms := findFirstWW
    (["weather", "winter", "summer", "temperature", "climate"]) query
  match locations, weather_terms with
  | some loc, some wt => wt ++ " in " ++ loc
  | _, _ =>
    if strContains (lowerStr query) "currency" || strContains (lowerStr query) "exchange" then
      "currency exchange analysis"
    else if strContains (lowerStr query) "math" || strContains query "+"
        || strContains query "-" || strContains query "*" || strContains query "/" then
      "mathematical calculation"
    else
      let meaningful := ((wordsOf response).take 10).filter (fun w => 3 < w.length)
      if meaningful.isEmpty then "the previous analysis"
      else String.intercalate (" ") (meaningful.take 3)

/-- OrchestratorContextManager._extract_subject. -/
def extract_subject (query : String) : String :=
  let words := wordsOf query
  if 2 < words.length then String.intercalate (" ") (words.drop (words.length - 3))
  else query

def take100 (s : String) : String :=
  String.mk (s.toList.take 100)

def take150 (s : String) : String :=
  String.mk (s.toList.take 150)

/-- A guarded substitution step: Python skips a replacement whose text
is falsy (the empty string). -/
def substIfNonEmpty (pat repl s : String) : String :=
  if repl = "" then s else substWW pat repl s

/-- The sequential re.sub pipeline of
OrchestratorContextManager._resolve_references (lines 189 to 207),
applied in the insertion order of the replacements dictionary. -/
def apply_substitutions (user_query : String) (last_turn : ConversationTurn) : String :=
  let topic := extract_main_topic last_turn.user_query last_turn.agent_response
  let e1 := substIfNonEmpty ("it") topic user_query
  let e2 := substIfNonEmpty ("that") topic e1
  let e3 := substIfNonEmpty ("this") topic e2
  let e4 := substIfNonEmpty ("the above")
    ("the analysis: " ++ take100 last_turn.agent_response ++ "...") e3
  let e5 := substIfNonEmpty ("the previous")
    ("the previous query about " ++ extract_subject last_turn.user_query) e4
  substIfNonEmpty ("the data")
    ("the data from: " ++ take100 last_turn.agent_response ++ "...") e5

/-- The literal context suffix appended when the enriched query is
still judged unclear. -/
def context_suffix (last_turn : ConversationTurn) : String :=
  " [Context: Previous query was \x27" ++ last_turn.user_query
    ++ "\x27 with response about: " ++ take150 last_turn.agent_response ++ "...]"

/-- OrchestratorContextManager._resolve_references.  After the
substitutions, the suffix is appended exactly when the whitespace
token count is below five and one of the plain substrings it, that,
this occurs in the lowercased enriched query. -/
def resolve_references (user_query : String) (last_turn : ConversationTurn) : String :=
  let enriched := apply_substitutions user_query last_turn
  if (wordsOf enriched).length < 5
      && (strContains (lowerStr enriched) ("it") || strContains (lowerStr enriched) ("that")
          || strContains (lowerStr enriched) ("this")) then
    enriched ++ context_suffix last_turn
  else enriched

/-- OrchestratorContextManager.enrich_query_with_context. -/
def enrich_query_with_context (ctx : CtxState) (session_id user_query : String) : String :=
  match lookupA ctx.sessions session_id with
  | none => user_query
  | some s =>
    match s.turns.getLast? with
    | none => user_query
    | some last_turn =>
      let needs_context := pronoun_patterns.any (fun p => containsWW p (lowerStr user_query))
      if needs_context then resolve_references user_query last_turn else user_query

/-! ## Agent registry data model (src/orchestrator/app/orchestrator.py) -/

structure Skill where
  id : String
  name : String
  description : String
  tags : List String
  examples : List String
deriving Repr, DecidableEq

structure AgentCard where
  name : String
  description : String
  url : String
  skills : List Skill
deriving Repr, DecidableEq

structure SkillInfo where
  name : String
  description : String
  tags : List String
deriving Repr, DecidableEq

/-- One entry of the derived agent_capabilities index: the shape the
routing engine reads (domains, keywords, examples, skills by id). -/
structure AgentCapability where
  domains : List String
  keywords : List String
  examples : List String
  skills : List (String × SkillInfo)
deriving Repr, DecidableEq

/-- The orchestrator state read by routing: the agents dictionary, the
skill_keywords index and the agent_capabilities index, plus the
context manager state. -/
structure OrchState where
  agents : List (String × AgentCard)
  skill_keywords : List (String × List String)
  agent_capabilities : List (String × AgentCapability)
  ctx : CtxState
deriving Repr, DecidableEq

inductive RemoveResult where
  | removed (agent_id : String) (card : AgentCard)
  | notFound
deriving Repr, DecidableEq

/-- The scan of SmartOrchestrator.unregister_agent (lines 243 to 263):
walk the registry in insertion order and stop at the first agent for
which any of the four identifier rules fires, checking the rules for
each agent in this order: exact key, exact url, case-insensitive name,
identifier a substring of the url. -/
def findAgentToRemove (identifier : String) : List (String × AgentCard) → Option (String × AgentCard)
  | [] => none
  | (aid, card) :: rest =>
    if aid = identifier then some (aid, card)
    else if card.url = identifier then some (aid, card)
    else if lowerStr card.name = lowerStr identifier then some (aid, card)
    else if strContains card.url identifier then some (aid, card)
    else findAgentToRemove identifier rest

/-- SmartOrchestrator.unregister_agent restricted to its observable
registry effect: the removed entry (or NOT_FOUND) and the registry
left behind.  The post-loop guard at line 265 tests the Python
truthiness of both loop results: the matched card object is always
truthy, but a matched agent registered under the empty-string key
fails the guard, so the code answers with the not-found error and
removes nothing. -/
def unregister_agent (identifier : String) (reg : List (String × AgentCard)) :
    RemoveResult × List (String × AgentCard) :=
  match findAgentToRemove identifier reg with
  | some p =>
    if p.1 = "" then (RemoveResult.notFound, reg)
    else (RemoveResult.removed p.1 p.2, eraseA reg p.1)
  | none => (RemoveResult.notFound, reg)

/-- One of the four unregister rules fires for this entry. -/
def matchesIdentifier (identifier aid : String) (card : AgentCard) : Bool :=
  decide (aid = identifier) || decide (card.url = identifier)
    || decide (lowerStr card.name = lowerStr identifier) || strContains card.url identifier

/-- The identifier resolution the specification describes for remove:
a strict priority pass over the whole registry per rule, one rule at a
time.  This follows the wording of the spec and is compared against
findAgentToRemove, which is translated from the code. -/
def specPriorityRemoveTarget (identifier : String) (reg : List (String × AgentCard)) :
    Option (String × AgentCard) :=
  match reg.find? (fun p => decide (p.1 = identifier)) with
  | some p => some p
  | none =>
    match reg.find? (fun p => decide (p.2.url = identifier)) with
    | some p => some p
    | none =>
      match reg.find? (fun p => decide (lowerStr p.2.name = lowerStr identifier)) with
      | some p => some p
      | none => reg.find? (fun p => strContains p.2.url identifier)

/-! ## Routing engine (SmartOrchestrator._analyze_request and helpers) -/

/-- SmartOrchestrator._skill_matches_request: any keyword of the
skill_keywords entry for this skill name occurs as a substring of the
lowercased request. -/
def skill_matches_request (st : OrchState) (skill_name request : String) : Bool :=
  ((lookupA st.skill_keywords skill_name).getD []).any
    (fun kw => strContains (lowerStr request) kw)

/-- SmartOrchestrator._calculate_keyword_score: one point per skill tag
occurring in the lowercased request, one and a half points per
matching skill; also returns the matched skill names. -/
def calculate_keyword_score (st : OrchState) (request : String) (card : AgentCard) :
    Rat × List String :=
  let request_lower := lowerStr request
  let keywords := (card.skills.map Skill.tags).flatten
  let tagHits := keywords.filter (fun kw => strContains request_lower (lowerStr kw))
  let matched := (card.skills.filter (fun sk => skill_matches_request st sk.name request)).map
    Skill.name
  ((tagHits.length : Rat) + (3 / 2 : Rat) * (matched.length : Rat), matched)

/-- SmartOrchestrator._calculate_semantic_score: half a point per
domain hit, seven tenths per keyword hit, three tenths per example
sharing a token with the request, four tenths per significant request
token occurring in a skill description; up to three reason strings. -/
def calculate_semantic_score (st : OrchState) (request : String) (agent_id : String) :
    Rat × List String :=
  match lookupA st.agent_capabilities agent_id with
  | none => (0, [])
  | some cap =>
    let request_lower := lowerStr request
    let domainHits := cap.domains.filter (fun d => strContains request_lower d)
    let kwHits := cap.keywords.filter (fun k => strContains request_lower k)
    let exHits := cap.examples.filter
      (fun ex => (wordsOf request_lower).any (fun w => strContains (lowerStr ex) w))
    let descHits := (cap.skills.map (fun p =>
      (((wordsOf request_lower).filter
          (fun w => 3 < w.length && strContains (lowerStr p.2.description) w)).map
        (fun w => (w, p.2.name))))).flatten
    let score := (domainHits.length : Rat) * (1 / 2 : Rat)
      + (kwHits.length : Rat) * (7 / 10 : Rat)
      + (exHits.length : Rat) * (3 / 10 : Rat)
      + (descHits.length : Rat) * (2 / 5 : Rat)
    let reasons := domainHits.map (fun d => "Request mentions domain: " ++ d)
      ++ kwHits.map (fun k => "Request contains keyword: " ++ k)
      ++ exHits.map (fun ex => "Request similar to example: " ++ ex)
      ++ descHits.map (fun p => "Request term \x27" ++ p.1 ++ "\x27 matches skill: " ++ p.2)
    (score, reasons.take 3)

/-- The combined score of _analyze_request: keyword weight 0.6,
semantic weight 0.4. -/
def combined_score (st : OrchState) (request : String) (agent_id : String) (card : AgentCard) :
    Rat :=
  (calculate_keyword_score st request card).1 * (3 / 5 : Rat)
    + (calculate_semantic_score st request agent_id).1 * (2 / 5 : Rat)

/-- The per-agent score table built by _analyze_request, in registry
iteration order. -/
def scoresFor (st : OrchState) (request : String) : List (String × Rat) :=
  st.agents.map (fun p => (p.1, combined_score st request p.1 p.2))

/-- The best-agent fold of _analyze_request: start from no agent and
score zero, take a later agent only on a strictly greater score. -/
def selectBest (scores : List (String × Rat)) : Option String × Rat :=
  scores.foldl (fun acc p => if acc.2 < p.2 then (some p.1, p.2) else acc) (none, 0)

/-- SmartOrchestrator._generate_reasoning. -/
def generate_reasoning (st : OrchState) (request : String) (agent_id : String) : String :=
  match lookupA st.agents agent_id with
  | none => "No suitable agent found for this request"
  | some card =>
    let request_lower := lowerStr request
    let matched_keywords := ((card.skills.map Skill.tags).flatten).filter
      (fun kw => strContains request_lower (lowerStr kw))
    let matched_skills := (calculate_keyword_score st request card).2
    let semantic_reasons := (calculate_semantic_score st request agent_id).2
    let parts := ["Selected " ++ card.name]
      ++ (if matched_keywords.isEmpty then []
          else ["based on keywords: " ++ String.intercalate (", ") matched_keywords])
      ++ (if matched_skills.isEmpty then []
          else [(if matched_keywords.isEmpty then "based on skills: " else "and skills: ")
            ++ String.intercalate (", ") matched_skills])
      ++ (if semantic_reasons.isEmpty then []
          else ["with additional context: " ++ String.intercalate ("; ") semantic_reasons])
      ++ (if matched_keywords.isEmpty && matched_skills.isEmpty && semantic_reasons.isEmpty
          then ["based on best overall capability match"] else [])
    String.intercalate (" ") parts

structure AnalyzeResult where
  selected : Option String
  confidence : Rat
  reasoning : String
deriving Repr, DecidableEq

/-- SmartOrchestrator._analyze_request: score every agent, pick the
best, decline below the 0.2 threshold, otherwise normalize the
confidence by the agent count and cap it at one. -/
def analyze_request (st : OrchState) (request : String) : AnalyzeResult :=
  let best := selectBest (scoresFor st request)
  if best.2 < (1 / 5 : Rat) then
    { selected := none, confidence := 0,
      reasoning := "No agent has sufficient capability to handle this request" }
  else
    { selected := best.1,
      confidence :=
        if 0 < (scoresFor st request).length then
          min (best.2 / ((scoresFor st request).length : Rat)) 1
        else 0,
      reasoning :=
        match best.1 with
        | some aid => generate_reasoning st request aid
        | none => "No suitable agent found" }

/-! ## Task transport (SmartOrchestrator._forward_request_to_agent) -/

inductive TaskState where
  | pending
  | working
  | inputRequired
  | completed
  | failed
  | other (s : String)
deriving Repr, DecidableEq

/-- One reply of the tasks/get polling loop, with the text already
extracted from the artifact parts or the status message parts:
some text when a text part is present, none otherwise. -/
inductive PollReply where
  | reply (state : TaskState) (text : Option String)
  | noResult
  | pollError (msg : String)
deriving Repr, DecidableEq

/-- The outcome of _forward_request_to_agent as seen by the caller: a
returned string, or a raised exception message. -/
inductive ForwardOutcome where
  | ok (text : String)
  | raised (msg : String)
deriving Repr, DecidableEq

/-- The result of the initial message/send call, with the response
text of a direct Message already extracted. -/
inductive SendResult where
  | taskEnvelope
  | directMessage (text : Option String)
  | rpcError (msg : String)
  | noResult
  | unexpectedFormat
  | connectError (msg : String)
  | timeoutError (msg : String)
  | httpStatusError (code : Nat) (body : String)
deriving Repr, DecidableEq

/-- The tasks/get polling loop (orchestrator.py lines 836 to 916):
up to 120 attempts one second apart.  Terminal states return text,
working and pending and unknown states keep polling, per-poll errors
keep polling except on the final attempt, and an exhausted budget
returns the literal timeout string as an ordinary value. -/
def pollTask (script : Nat → PollReply) : Nat → Nat → ForwardOutcome
  | _, 0 => ForwardOutcome.ok ("Task did not complete within 120 seconds timeout")
  | attempt, remaining + 1 =>
    match script attempt with
    | PollReply.reply TaskState.completed txt =>
      ForwardOutcome.ok (txt.getD ("Task completed but no response text found"))
    | PollReply.reply TaskState.failed txt =>
      ForwardOutcome.ok
        (match txt with
         | some t => "Agent task failed: " ++ t
         | none => "Agent task failed")
    | PollReply.reply TaskState.inputRequired txt =>
      ForwardOutcome.ok (txt.getD ("Agent requires input but no message provided"))
    | PollReply.reply TaskState.working _ => pollTask script (attempt + 1) remaining
    | PollReply.reply TaskState.pending _ => pollTask script (attempt + 1) remaining
    | PollReply.reply (TaskState.other _) _ => pollTask script (attempt + 1) remaining
    | PollReply.noResult => pollTask script (attempt + 1) remaining
    | PollReply.pollError e =>
      if remaining = 1 then ForwardOutcome.raised ("Request forwarding failed: " ++ e)
      else pollTask script (attempt + 1) remaining

/-- SmartOrchestrator._forward_request_to_agent, with the network as
an oracle: the message/send result and the poll reply script are
inputs.  Transport failures become raised exception messages, matching
the except clauses of the source. -/
def forward_request_to_agent (endpoint : String) (send : SendResult)
    (script : Nat → PollReply) : ForwardOutcome :=
  match send with
  | SendResult.connectError e =>
    ForwardOutcome.raised ("Could not connect to agent at " ++ endpoint
      ++ ". Make sure the agent is running. Error: " ++ e)
  | SendResult.timeoutError e =>
    ForwardOutcome.raised ("Request to agent at " ++ endpoint ++ " timed out. Error: " ++ e)
  | SendResult.httpStatusError code body =>
    ForwardOutcome.raised ("Agent at " ++ endpoint ++ " returned HTTP "
      ++ toString code ++ ": " ++ body)
  | SendResult.rpcError e =>
    ForwardOutcome.raised ("Request forwarding failed: Agent returned JSON-RPC error: " ++ e)
  | SendResult.noResult =>
    ForwardOutcome.raised ("Request forwarding failed: No result in agent response")
  | SendResult.directMessage (some t) => ForwardOutcome.ok t
  | SendResult.directMessage none =>
    ForwardOutcome.ok ("Message received but no text content")
  | SendResult.unexpectedFormat =>
    ForwardOutcome.ok ("Unexpected response format from agent")
  | SendResult.taskEnvelope => pollTask script 0 120

/-! ## Context id validation in the transport (orchestrator.py lines 671 to 679) -/

def isHexDigitChar (c : Char) : Bool :=
  c.isDigit || ('a' ≤ c && c ≤ 'f') || ('A' ≤ c && c ≤ 'F')

def stripBraceChars (l : List Char) : List Char :=
  (((l.dropWhile (fun c => c = '{' || c = '}')).reverse.dropWhile
    (fun c => c = '{' || c = '}')).reverse)

/-- Python str.replace(old, new-empty): delete every non-overlapping
occurrence of the pattern, scanning left to right. -/
def deleteSubFuel (pat : List Char) : Nat → List Char → List Char
  | 0, s => s
  | _ + 1, [] => []
  | fuel + 1, c :: cs =>
    if !pat.isEmpty && startsWithL (c :: cs) pat then
      deleteSubFuel pat fuel ((c :: cs).drop pat.length)
    else
      c :: deleteSubFuel pat fuel cs

def deleteSub (s pat : String) : List Char :=
  deleteSubFuel pat.toList (s.toList.length + 1) s.toList

/-- The hex digits the Python uuid.UUID constructor extracts from a
string form: the urn markers removed, outer braces stripped, dashes
dropped. -/
def uuidHexDigits (s : String) : List Char :=
  (stripBraceChars (deleteSubFuel ("uuid:").toList (s.toList.length + 1)
    (deleteSub s ("urn:")))).filter (fun c => c ≠ '-')

/-- Acceptance of uuid.UUID(s): exactly 32 hex digits remain. -/
def isValidUUID (s : String) : Bool :=
  (uuidHexDigits s).length = 32 && (uuidHexDigits s).all isHexDigitChar

/-- str(uuid.UUID(s)): the canonical lowercase dashed form. -/
def canonicalUUID (s : String) : String :=
  let h := (uuidHexDigits s).map Char.toLower
  String.mk (h.take 8) ++ "-" ++ String.mk ((h.drop 8).take 4) ++ "-"
    ++ String.mk ((h.drop 12).take 4) ++ "-" ++ String.mk ((h.drop 16).take 4) ++ "-"
    ++ String.mk (h.drop 20)

/-- The contextId computation at the top of _forward_request_to_agent:
a syntactically valid UUID is canonicalized and used; anything else
falls back to get_or_create_session with the same supplied string. -/
def forward_context_id (ctx : CtxState) (session_id : String) (now : Nat) (fresh : String) :
    String × CtxState :=
  if isValidUUID session_id then (canonicalUUID session_id, ctx)
  else get_or_create_session ctx (some session_id) none now fresh

/-! ## Orchestrator facade (SmartOrchestrator.process_request and the REST layer) -/

/-- Two-decimal rendering of the confidence for the fallback response
(the f-string .2f format of the source). -/
def fmt2 (q : Rat) : String :=
  let n : Int := (q * 100 + 1 / 2 : Rat).floor
  toString (n / 100) ++ "." ++ (if n % 100 < 10 then "0" else "") ++ toString (n % 100)

/-- The response text of the fallback branch in _route_to_agent (lines
650 to 656): routing information instead of an agent response. -/
def routingFallback (card : AgentCard) (confidence : Rat) (reasoning errorMsg : String) :
    String :=
  "Smart Routing Decision\n\n"
    ++ "Selected Agent: " ++ card.name ++ "\n"
    ++ "Endpoint: " ++ card.url ++ "\n"
    ++ "Confidence: " ++ fmt2 confidence ++ "\n"
    ++ "Reasoning: " ++ reasoning ++ "\n\n"
    ++ "WARNING: Could not forward request: " ++ errorMsg ++ "\n"
    ++ "Connect directly to " ++ card.name ++ " at " ++ card.url

def noAgentResponse : String :=
  "No suitable agent found for this request. Please try a different query or register additional agents."

structure ProcessResult where
  success : Bool
  sessionId : String
  selectedAgentId : String
  selectedAgentName : String
  confidence : Rat
  reasoning : String
  response : String
  status : String
  errorMsg : Option String
  transportCalled : Bool
  ctxOut : CtxState
deriving Repr, DecidableEq

/-- SmartOrchestrator.process_request: resolve the session, enrich the
request, run the analyze and route workflow nodes, and append a
conversation turn when an agent handled the request.  The transport
outcome of the single possible forward call is the oracle argument
`forward`; transportCalled records whether the route node reached it. -/
def process_request (st : OrchState) (request : String) (session_id : Option String)
    (now : Nat) (fresh : String) (forward : ForwardOutcome) : ProcessResult :=
  let g := get_or_create_session st.ctx session_id none now fresh
  let sid := g.1
  let ctx1 := g.2
  let enriched := enrich_query_with_context ctx1 sid request
  let ar := analyze_request st enriched
  match ar.selected with
  | none =>
    { success := true, sessionId := sid, selectedAgentId := "", selectedAgentName := "None",
      confidence := 0, reasoning := ar.reasoning, response := noAgentResponse,
      status := "no_agent_found", errorMsg := none, transportCalled := false, ctxOut := ctx1 }
  | some aid =>
    match lookupA st.agents aid with
    | none =>
      { success := false, sessionId := sid, selectedAgentId := aid, selectedAgentName := "",
        confidence := ar.confidence, reasoning := ar.reasoning, response := "",
        status := "error",
        errorMsg := some ("Selected agent \x27" ++ aid ++ "\x27 not found in registry"),
        transportCalled := false, ctxOut := ctx1 }
    | some card =>
      let routed :=
        match forward with
        | ForwardOutcome.ok t => ("Routed to " ++ card.name ++ ": " ++ t, "completed")
        | ForwardOutcome.raised m =>
          (routingFallback card ar.confidence ar.reasoning m, "routing_only")
      let ctx2 := add_conversation_turn ctx1 sid request card.name routed.1 ar.confidence
        now fresh
      { success := true, sessionId := sid, selectedAgentId := aid,
        selectedAgentName := card.name, confidence := ar.confidence,
        reasoning := ar.reasoning, response := routed.1, status := routed.2,
        errorMsg := none, transportCalled := true, ctxOut := ctx2 }

structure QueryResponse where
  success : Bool
  response : String
  selected_agent_id : Option String
  selected_agent_name : Option String
  confidence : Option Rat
  reasoning : Option String
  session_id : Option String
  error : Option String
deriving Repr, DecidableEq

/-- Python str.strip(): drop whitespace from both ends. -/
def strTrim (s : String) : String :=
  String.mk (((s.toList.dropWhile Char.isWhitespace).reverse.dropWhile
    Char.isWhitespace).reverse)

/-- The REST query endpoint process_query
(agent_management_api.py lines 256 to 317): reject blank queries,
otherwise forward the stripped query to process_request and map the
result onto the QueryResponse shape. -/
def process_query (st : OrchState) (query : String) (session_id : Option String)
    (now : Nat) (fresh : String) (forward : ForwardOutcome) : QueryResponse :=
  if strTrim query = "" then
    { success := false, response := "", selected_agent_id := none,
      selected_agent_name := none, confidence := none, reasoning := none,
      session_id := session_id, error := some ("Query cannot be empty") }
  else
    let r := process_request st (strTrim query) session_id now fresh forward
    if r.success then
      { success := true, response := r.response,
        selected_agent_id := some r.selectedAgentId,
        selected_agent_name := some r.selectedAgentName,
        confidence := some r.confidence, reasoning := some r.reasoning,
        session_id := some r.sessionId, error := none }
    else
      { success := false, response := "", selected_agent_id := none,
        selected_agent_name := none, confidence := none, reasoning := none,
        session_id := session_id, error := some (r.errorMsg.getD ("Unknown error occurred")) }

/-- The turn list a session id holds in a session table (empty when
the id is unknown). -/
def turnsOf (l : List (String × ConversationSession)) (k : String) : List ConversationTurn :=
  ((lookupA l k).map ConversationSession.turns).getD []

/-! ## Helper lemmas about the dictionary operations -/

theorem lookupA_setA {α : Type} (l : List (String × α)) (k : String) (v : α) (k' : String) :
    lookupA (setA l k v) k' = if k = k' then some v else lookupA l k' := by
  induction l with
  | nil => simp [setA, lookupA]
  | cons hd tl ih =>
    obtain ⟨a, b⟩ := hd
    by_cases h1 : a = k
    · subst h1
      by_cases h2 : a = k' <;> simp [setA, lookupA, h2]
    · by_cases h2 : k = k'
      · subst h2
        simp [setA, lookupA, h1, ih]
      · by_cases h3 : a = k'
        · subst h3
          have h4 : ¬ a = k := h1
          have h5 : ¬ a = k := fun h => h2 (Eq.symm h)
          simp [setA, lookupA, h2, h4, h5, ih]
        · simp [setA, lookupA, h1, h2, h3, ih]

theorem lookupA_setA_self {α : Type} (l : List (String × α)) (k : String) (v : α) :
    lookupA (setA l k v) k = some v := by
  simp [lookupA_setA]

/-- After get_or_create_session, the returned id is a key of the
resulting session table. -/
theorem lookupA_get_or_create_isSome (ctx : CtxState) (session_id user_id : Option String)
    (now : Nat) (fresh : String) :
    (lookupA (get_or_create_session ctx session_id user_id now fresh).2.sessions
      (get_or_create_session ctx session_id user_id now fresh).1).isSome = true := by
  match session_id with
  | none => simp [get_or_create_session, createNewSession, lookupA_setA_self]
  | some sid =>
    by_cases hsid : sid = ""
    · simp [get_or_create_session, hsid, createNewSession, lookupA_setA_self]
    · match hlk : lookupA ctx.sessions sid with
      | some s => simp [get_or_create_session, hsid, hlk, lookupA_setA_self]
      | none => simp [get_or_create_session, hsid, hlk, createNewSession, lookupA_setA_self]

/-- get_or_create_session never changes the turn list of any key, as
long as the minted UUID is fresh for the table. -/
theorem turnsOf_get_or_create (ctx : CtxState) (session_id user_id : Option String)
    (now : Nat) (fresh : String) (k : String)
    (hFresh : lookupA ctx.sessions fresh = none) :
    turnsOf (get_or_create_session ctx session_id user_id now fresh).2.sessions k
      = turnsOf ctx.sessions k := by
  match session_id with
  | none =>
    by_cases hk : fresh = k
    · subst hk
      simp [get_or_create_session, createNewSession, turnsOf, lookupA_setA_self, hFresh]
    · simp [get_or_create_session, createNewSession, turnsOf, lookupA_setA, hk]
  | some sid =>
    by_cases hsid : sid = ""
    · by_cases hk : fresh = k
      · subst hk
        simp [get_or_create_session, hsid, createNewSession, turnsOf, lookupA_setA_self, hFresh]
      · simp [get_or_create_session, hsid, createNewSession, turnsOf, lookupA_setA, hk]
    · match hlk : lookupA ctx.sessions sid with
      | some s =>
        by_cases hk : sid = k
        · subst hk
          simp [get_or_create_session, hsid, hlk, turnsOf, lookupA_setA_self]
        · simp [get_or_create_session, hsid, hlk, turnsOf, lookupA_setA, hk]
      | none =>
        by_cases hk : sid = k
        · subst hk
          simp [get_or_create_session, hsid, hlk, createNewSession, turnsOf,
            lookupA_setA_self]
        · simp [get_or_create_session, hsid, hlk, createNewSession, turnsOf,
            lookupA_setA, hk]

theorem update_active_topics_turns (s : ConversationSession) (q r : String) :
    (update_active_topics s q r).turns = s.turns := by
  simp [update_active_topics]

/-- Appending a turn to a session that exists extends exactly its turn
list by the new turn. -/
theorem turnsOf_add_conversation_turn (ctx : CtxState)
    (session_id user_query agent_name agent_response : String) (conf : Rat)
    (now : Nat) (fresh : String) (s : ConversationSession)
    (hs : lookupA ctx.sessions session_id = some s) :
    turnsOf (add_conversation_turn ctx session_id user_query agent_name agent_response
        conf now fresh).sessions session_id
      = turnsOf ctx.sessions session_id
        ++ [{ timestamp := now, user_query := user_query, agent_name := agent_name,
              agent_response := agent_response, routing_confidence := conf }] := by
  simp [add_conversation_turn, hs, turnsOf, lookupA_setA_self, update_active_topics_turns]

/-! ## Registry lemmas -/

/-- The unregister scan is the first entry, in registry order, for
which any of the four rules fires. -/
theorem findAgentToRemove_eq_find (identifier : String) (reg : List (String × AgentCard)) :
    findAgentToRemove identifier reg
      = reg.find? (fun p => matchesIdentifier identifier p.1 p.2) := by
  induction reg with
  | nil => simp [findAgentToRemove]
  | cons hd tl ih =>
    obtain ⟨aid, card⟩ := hd
    by_cases h1 : aid = identifier
    · simp [findAgentToRemove, h1, List.find?, matchesIdentifier]
    · by_cases h2 : card.url = identifier
      · simp [findAgentToRemove, h1, h2, List.find?, matchesIdentifier]
      · by_cases h3 : lowerStr card.name = lowerStr identifier
        · simp [findAgentToRemove, h1, h2, h3, List.find?, matchesIdentifier]
        · by_cases h4 : strContains card.url identifier
          · simp [findAgentToRemove, h1, h2, h3, h4, List.find?, matchesIdentifier]
          · simp [findAgentToRemove, h1, h2, h3, h4, List.find?, matchesIdentifier, ih]

/-- The empty identifier is a substring of every url. -/
theorem strContains_empty (s : String) : strContains s "" = true := by
  have h : ∀ l : List Char, containsSub l [] = true := by
    intro l
    cases l with
    | nil => rfl
    | cons c cs => simp [containsSub, startsWithL]
  simpa [strContains] using h s.toList

/-- Removing the head key from a table with distinct keys leaves
exactly the tail. -/
theorem eraseA_cons_of_nodup {α : Type} (a : String × α) (rest : List (String × α))
    (h : ((a :: rest).map Prod.fst).Nodup) : eraseA (a :: rest) a.1 = rest := by
  simp only [List.map_cons, List.nodup_cons] at h
  have hmem : a.1 ∉ rest.map Prod.fst := h.1
  have hall : ∀ p ∈ rest, p.1 ≠ a.1 := by
    intro p hp heq
    exact hmem (heq ▸ List.mem_map_of_mem Prod.fst hp)
  have hkeep : List.filter (fun p => p.1 ≠ a.1) rest = rest := by
    rw [List.filter_eq_self]
    intro p hp
    simpa using hall p hp
  simp [eraseA, List.filter_cons, hkeep]
  exact fun x b hx => hall (x, b) hx

/-! ## Routing and polling lemmas -/

theorem selectBest_nil : selectBest [] = (none, 0) := rfl

/-- A poll reply that keeps the loop going: a working, pending or
unrecognized task state, or a reply without a result field. -/
def pollContinues : PollReply → Bool
  | PollReply.reply TaskState.working _ => true
  | PollReply.reply TaskState.pending _ => true
  | PollReply.reply (TaskState.other _) _ => true
  | PollReply.noResult => true
  | _ => false

/-- If every poll inside the budget keeps the loop going, the loop
exhausts its budget and returns the literal timeout string as an
ordinary (non-raised) outcome. -/
theorem pollTask_timeout (script : Nat → PollReply) (remaining attempt : Nat)
    (h : ∀ i, attempt ≤ i → i < attempt + remaining → pollContinues (script i) = true) :
    pollTask script attempt remaining
      = ForwardOutcome.ok ("Task did not complete within 120 seconds timeout") := by
  induction remaining generalizing attempt with
  | zero => rfl
  | succ n ih =>
    have hc := h attempt (Nat.le_refl _) (by omega)
    have hrest : ∀ i, attempt + 1 ≤ i → i < (attempt + 1) + n → pollContinues (script i) = true := by
      intro i h1 h2
      exact h i (by omega) (by omega)
    cases hs : script attempt with
    | reply ts txt =>
      cases ts <;> rw [hs] at hc <;> simp [pollContinues] at hc <;>
        simp [pollTask, hs] <;> exact ih _ hrest
    | noResult =>
      simp [pollTask, hs]
      exact ih _ hrest
    | pollError e =>
      rw [hs] at hc
      simp [pollContinues] at hc

/-! ## Concrete fixtures used by witnesses and counterexamples -/

def skillMathFx : Skill :=
  { id := "arith", name := "Math", description := "perform arithmetic calculations",
    tags := ["math"], examples := [] }

def cardMathFx : AgentCard :=
  { name := "Math Agent", description := "does math", url := "http://localhost:8002",
    skills := [skillMathFx] }

def capMathFx : AgentCapability :=
  { domains := ["math"], keywords := ["math"], examples := [],
    skills := [("arith",
      { name := "Math", description := "perform arithmetic calculations",
        tags := ["math"] })] }

def emptyCtxFx : CtxState :=
  { sessions := [], session_timeout := 24 }

/-- An orchestrator with a single math agent registered and no
sessions. -/
def stMathFx : OrchState :=
  { agents := [("Math Agent", cardMathFx)], skill_keywords := [("Math", ["math"])],
    agent_capabilities := [("Math Agent", capMathFx)], ctx := emptyCtxFx }

/-- An orchestrator with an empty registry and no sessions. -/
def stEmptyFx : OrchState :=
  { agents := [], skill_keywords := [], agent_capabilities := [], ctx := emptyCtxFx }

/-- A freshly minted v4 UUID standing in for uuid.uuid4(). -/
def freshFx : String := "8b6a6f4e-2f5a-4f3a-9c1d-1a2b3c4d5e6f"

def turnWeatherFx : ConversationTurn :=
  { timestamp := 0, user_query := "weather in Boston", agent_name := "RAG Agent",
    agent_response := "Cold and snowy this season", routing_confidence := 1 }

/-- A context holding one session s1 whose last activity is at tick 0. -/
def ctxStaleFx : CtxState :=
  { sessions := [("s1",
      { session_id := "s1", user_id := none, created_at := 0, last_activity := 0,
        turns := [turnWeatherFx], context_summary := none, active_topics := [] })],
    session_timeout := 24 }

def cardAlphaFx : AgentCard :=
  { name := "Alpha", description := "", url := "http://host/beta", skills := [] }

def cardBetaFx : AgentCard :=
  { name := "beta", description := "", url := "http://other", skills := [] }

/-- A registry where the first entry matches the identifier beta only
by the url-substring rule, while the second entry is an exact key
match for beta. -/
def regPriorityFx : List (String × AgentCard) :=
  [("alpha", cardAlphaFx), ("beta", cardBetaFx)]

def scriptAllWorkingFx : Nat → PollReply :=
  fun _ => PollReply.reply TaskState.working none

def timeoutTextFx : String := "Task did not complete within 120 seconds timeout"

/-! ## Claim C1 -/

/-- Claim C1 (code behaviour at the failing input): a supplied
syntactically invalid session id such as not-a-uuid is not replaced by
a freshly minted v4 UUID.  get_or_create_session stores the session
under the invalid string and returns it, process_request reports it as
the session id of the query, and even the transport-level fallback of
_forward_request_to_agent hands back the same invalid string as the
contextId, because the session now exists under that key.  This
contradicts the claim that the supplied non-UUID string is never used
as the session key. -/
theorem claim_c1_invalid_id_used_as_key :
    isValidUUID ("not-a-uuid") = false ∧
    (get_or_create_session emptyCtxFx (some ("not-a-uuid")) none 0 freshFx).1 = "not-a-uuid" ∧
    (lookupA (get_or_create_session emptyCtxFx (some ("not-a-uuid")) none 0 freshFx).2.sessions
      ("not-a-uuid")).isSome = true ∧
    (forward_context_id
      (get_or_create_session emptyCtxFx (some ("not-a-uuid")) none 0 freshFx).2
      ("not-a-uuid") 1 freshFx).1 = "not-a-uuid" ∧
    (process_request stEmptyFx ("hello") (some ("not-a-uuid")) 0 freshFx
      (ForwardOutcome.ok (""))).sessionId = "not-a-uuid" := by
  refine ⟨by decide, by decide, by decide, by decide, by decide⟩

/-! ## Claim C4 -/

/-- Claim C4 (counterexample): after the expiry sweep evicts session
s1, calling get_or_create_session with the old id recreates a session
under the very same id, so an evicted id is not protected against
reuse. -/
theorem claim_c4_counterexample :
    (cleanup_expired_sessions ctxStaleFx 100).2.sessions = [] ∧
    (get_or_create_session (cleanup_expired_sessions ctxStaleFx 100).2
      (some ("s1")) none 100 freshFx).1 = "s1" ∧
    (lookupA (get_or_create_session (cleanup_expired_sessions ctxStaleFx 100).2
      (some ("s1")) none 100 freshFx).2.sessions ("s1")).isSome = true := by
  refine ⟨by decide, by decide, by decide⟩

/-- Claim C4 (amended): eviction removes the session, but it does not
retire the id.  Any later get_or_create_session carrying the evicted
(non-empty) id creates a brand new session under the old id, with an
empty turn list; the evicted data itself is not resurrected. -/
theorem claim_c4_amended (ctx : CtxState) (now now2 : Nat) (sid fresh : String)
    (uid : Option String) (hsid : sid ≠ "")
    (hev : lookupA (cleanup_expired_sessions ctx now).2.sessions sid = none) :
    (get_or_create_session (cleanup_expired_sessions ctx now).2 (some sid) uid now2 fresh).1
        = sid ∧
    lookupA (get_or_create_session (cleanup_expired_sessions ctx now).2
        (some sid) uid now2 fresh).2.sessions sid
      = some { session_id := sid, user_id := uid, created_at := now2, last_activity := now2,
               turns := [], context_summary := none, active_topics := [] } := by
  constructor
  · simp [get_or_create_session, hsid, hev, createNewSession]
  · simp [get_or_create_session, hsid, hev, createNewSession, lookupA_setA_self]

/-- Claim C4 (witness for the amended theorem): instantiated at the
concrete evicted session. -/
theorem claim_c4_amended_witness :
    (get_or_create_session (cleanup_expired_sessions ctxStaleFx 100).2
        (some ("s1")) none 100 freshFx).1 = "s1" ∧
    lookupA (get_or_create_session (cleanup_expired_sessions ctxStaleFx 100).2
        (some ("s1")) none 100 freshFx).2.sessions ("s1")
      = some { session_id := "s1", user_id := none, created_at := 100, last_activity := 100,
               turns := [], context_summary := none, active_topics := [] } :=
  claim_c4_amended ctxStaleFx 100 100 ("s1") freshFx none (by decide) (by decide)

/-! ## Claim C5 -/

/-- Claim C5 (counterexample): with the identifier beta, the code
removes the entry alpha (matched by the url-substring rule during the
single pass) even though the entry beta is an exact key match.  Under
the claimed whole-registry priority order the exact key match would
have to win, so the claim is false. -/
theorem claim_c5_counterexample :
    findAgentToRemove ("beta") regPriorityFx = some ("alpha", cardAlphaFx) ∧
    specPriorityRemoveTarget ("beta") regPriorityFx = some ("beta", cardBetaFx) ∧
    findAgentToRemove ("beta") regPriorityFx ≠ specPriorityRemoveTarget ("beta") regPriorityFx := by
  refine ⟨by decide, by decide, by decide⟩

/-- Claim C5 (amended): unregister resolves the identifier in a single
pass over the registry in iteration order and takes the first entry
for which any of the four rules fires (the rules are tried per entry
in the order exact key, exact url, case-insensitive name, url
substring).  A matched entry whose registry key is non-empty is
removed and returned; when the matched key is the empty string the
post-loop truthiness guard fails, so the call answers NOT_FOUND and
removes nothing, exactly as it does when no entry matches any rule. -/
theorem claim_c5_amended (identifier : String) (reg : List (String × AgentCard)) :
    (unregister_agent identifier reg).1
        = (match reg.find? (fun p => matchesIdentifier identifier p.1 p.2) with
           | some p =>
             if p.1 = "" then RemoveResult.notFound else RemoveResult.removed p.1 p.2
           | none => RemoveResult.notFound) ∧
    (unregister_agent identifier reg).2
        = (match reg.find? (fun p => matchesIdentifier identifier p.1 p.2) with
           | some p => if p.1 = "" then reg else eraseA reg p.1
           | none => reg) := by
  simp only [unregister_agent, findAgentToRemove_eq_find]
  cases hf : reg.find? (fun p => matchesIdentifier identifier p.1 p.2) with
  | none => exact ⟨rfl, rfl⟩
  | some p =>
    by_cases hp : p.1 = ""
    · simp [hp]
    · simp [hp]

/-! ## Claim C10 -/

/-- An agent card registered under the empty name, hence under the
empty registry key. -/
def cardAnonFx : AgentCard :=
  { name := "", description := "", url := "http://host/anon", skills := [] }

/-- A non-empty registry whose first entry is keyed by the empty
string. -/
def regAnonFx : List (String × AgentCard) :=
  [("", cardAnonFx), ("beta", cardBetaFx)]

/-- Claim C10 (counterexample): a non-empty registry whose first agent
is registered under the empty-string key.  The scan matches that first
agent (the empty identifier is a substring of its url), but the
post-loop truthiness guard rejects the empty key, so unregister
answers NOT_FOUND and removes nothing - against the claim that the
call succeeds and removes the first agent for every non-empty
registry. -/
theorem claim_c10_counterexample :
    regAnonFx ≠ [] ∧
    findAgentToRemove ("") regAnonFx = some ("", cardAnonFx) ∧
    (unregister_agent ("") regAnonFx).1 = RemoveResult.notFound ∧
    (unregister_agent ("") regAnonFx).2 = regAnonFx := by
  refine ⟨by decide, by decide, by decide, by decide⟩

/-- Claim C10 (amended): for a registry with distinct keys, the
empty-string identifier always matches the first entry in iteration
order (the empty string is a substring of every url).  When that first
entry is keyed by a non-empty string it is removed and the tail is
left; the call returns NOT_FOUND, removing nothing, exactly when the
registry is empty or its first entry is keyed by the empty string. -/
theorem claim_c10_empty_identifier (reg : List (String × AgentCard))
    (h : (reg.map Prod.fst).Nodup) :
    (unregister_agent ("") reg).1
        = (match reg.head? with
           | some p =>
             if p.1 = "" then RemoveResult.notFound else RemoveResult.removed p.1 p.2
           | none => RemoveResult.notFound) ∧
    (unregister_agent ("") reg).2
        = (match reg.head? with
           | some p => if p.1 = "" then reg else reg.tail
           | none => reg) := by
  cases reg with
  | nil => exact ⟨rfl, rfl⟩
  | cons a rest =>
    obtain ⟨aid, card⟩ := a
    have hfind : findAgentToRemove ("") ((aid, card) :: rest) = some (aid, card) := by
      by_cases h1 : aid = ""
      · simp [findAgentToRemove, h1]
      · by_cases h2 : card.url = ""
        · simp [findAgentToRemove, h1, h2]
        · by_cases h3 : lowerStr card.name = lowerStr ""
          · simp [findAgentToRemove, h1, h2, h3]
          · simp [findAgentToRemove, h1, h2, h3, strContains_empty]
    by_cases haid : aid = ""
    · subst haid
      refine ⟨?_, ?_⟩
      · simp [unregister_agent, hfind]
      · simp [unregister_agent, hfind]
    · have herase := eraseA_cons_of_nodup (aid, card) rest h
      refine ⟨?_, ?_⟩
      · simp [unregister_agent, hfind, haid]
      · simp only [unregister_agent, hfind]
        simp [haid, herase]

/-- Claim C10 (witness for the amended theorem): a concrete two-agent
registry whose first key is non-empty. -/
theorem claim_c10_witness :
    (unregister_agent ("") regPriorityFx).1 = RemoveResult.removed ("alpha") cardAlphaFx ∧
    (unregister_agent ("") regPriorityFx).2 = [("beta", cardBetaFx)] := by
  have h := claim_c10_empty_identifier regPriorityFx (by decide)
  refine ⟨?_, ?_⟩
  · rw [h.1]
    decide
  · rw [h.2]
    decide

/-! ## Claim C7 -/

def turnC7Fx : ConversationTurn :=
  { timestamp := 0, user_query := "weather in Boston", agent_name := "RAG Agent",
    agent_response := "Cold and snowy this season", routing_confidence := 1 }

/-- Claim C7 (counterexample): the query contains the unresolved
reference token they (a whole-word match) and has fewer than five
whitespace tokens, so the claim demands the literal context suffix;
the code appends nothing, because its suffix condition only inspects
the plain substrings it, that, this. -/
theorem claim_c7_counterexample :
    resolve_references ("where are they") turnC7Fx = "where are they" ∧
    containsWW ("they") (lowerStr ("where are they")) = true ∧
    (wordsOf ("where are they")).length < 5 := by
  refine ⟨by decide, by decide, by decide⟩

/-- Claim C7 (amended): after token substitution the context manager
appends the literal suffix exactly when the whitespace-split token
count of the enriched query is below five and one of the plain
substrings it, that, this occurs in the lowercased enriched query
(substring containment, not whole-word, and not the full
reference-token list). -/
theorem claim_c7_amended (user_query : String) (last_turn : ConversationTurn) :
    resolve_references user_query last_turn
        = apply_substitutions user_query last_turn ++ context_suffix last_turn
      ↔ ((wordsOf (apply_substitutions user_query last_turn)).length < 5
          ∧ (strContains (lowerStr (apply_substitutions user_query last_turn)) ("it") = true
             ∨ strContains (lowerStr (apply_substitutions user_query last_turn)) ("that") = true
             ∨ strContains (lowerStr (apply_substitutions user_query last_turn)) ("this") = true)) := by
  have h4 : ("...]" : String).length = 4 := by decide
  have hlen : (context_suffix last_turn).length ≠ 0 := by
    rw [context_suffix, String.length_append, h4]
    omega
  have key : ∀ (b : Bool) (e suf : String), suf.length ≠ 0 →
      ((if b then e ++ suf else e) = e ++ suf ↔ b = true) := by
    intro b e suf hs
    cases b with
    | true => simp
    | false =>
      simp only [Bool.false_eq_true, if_false]
      constructor
      · intro h
        have hl := congrArg String.length h
        rw [String.length_append] at hl
        omega
      · intro h
        cases h
  rw [resolve_references]
  rw [key _ _ _ hlen]
  simp only [Bool.and_eq_true, Bool.or_eq_true, decide_eq_true_eq]
  exact and_congr_right (fun _ => or_assoc)

/-! ## Claim C8 -/

/-- Claim C8: for every context state (sessions with or without prior
turns) and every query containing none of the eight reference tokens
as case-insensitive whole words, query enrichment returns the original
query unchanged. -/
theorem claim_c8_no_reference_unchanged (ctx : CtxState) (sid user_query : String)
    (h : pronoun_patterns.all (fun p => !containsWW p (lowerStr user_query)) = true) :
    enrich_query_with_context ctx sid user_query = user_query := by
  have hany : pronoun_patterns.any (fun p => containsWW p (lowerStr user_query)) = false := by
    rw [List.any_eq_false]
    intro p hp
    have := (List.all_eq_true.mp h) p hp
    simpa using this
  rw [enrich_query_with_context]
  cases hlk : lookupA ctx.sessions sid with
  | none => rfl
  | some s =>
    cases hgl : s.turns.getLast? with
    | none => simp [hgl]
    | some last_turn => simp [hgl, hany]

/-- A context with one session carrying a prior turn, for the C8
witness. -/
def ctxC8Fx : CtxState :=
  { sessions := [("s8",
      { session_id := "s8", user_id := none, created_at := 0, last_activity := 0,
        turns := [turnC7Fx], context_summary := none, active_topics := [] })],
    session_timeout := 24 }

/-- Claim C8 (witness): a session with history and a query free of
reference tokens comes back unchanged. -/
theorem claim_c8_witness :
    enrich_query_with_context ctxC8Fx ("s8") ("hello weather") = "hello weather" :=
  claim_c8_no_reference_unchanged ctxC8Fx ("s8") ("hello weather") (by decide)

/-! ## Claim C9 -/

/-- Claim C9: whenever the router selects a winner, the reported
confidence is the best combined score divided by the number of
registered agents in the scored snapshot, capped at one; the constant
5.0 normalization appears nowhere. -/
theorem claim_c9_confidence_formula (st : OrchState) (request : String) (aid : String)
    (h : (analyze_request st request).selected = some aid) :
    (analyze_request st request).confidence
      = min ((selectBest (scoresFor st request)).2 / (st.agents.length : Rat)) 1 := by
  rw [analyze_request] at h ⊢
  by_cases hlt : (selectBest (scoresFor st request)).2 < (1 / 5 : Rat)
  · rw [if_pos hlt] at h
    simp at h
  · rw [if_neg hlt] at h ⊢
    have hne : scoresFor st request ≠ [] := by
      intro hnil
      rw [hnil, selectBest_nil] at hlt
      exact hlt (by norm_num)
    have hpos : 0 < (scoresFor st request).length := List.length_pos.mpr hne
    have hlensf : (scoresFor st request).length = st.agents.length := by
      simp [scoresFor]
    rw [hlensf] at hpos
    rw [hlensf, if_pos hpos]

/-- Claim C9 (witness): the one-agent fixture selects the math agent
and its confidence is the capped normalized best score. -/
theorem claim_c9_witness :
    (analyze_request stMathFx ("math")).confidence
      = min ((selectBest (scoresFor stMathFx ("math"))).2 / (stMathFx.agents.length : Rat)) 1 :=
  claim_c9_confidence_formula stMathFx ("math") ("Math Agent") (by decide)

/-! ## Claim C6 -/

/-- Claim C6: when the best combined score over the scored (enriched)
request is below the 0.2 threshold - in particular against an empty
registry - the facade returns the structured no-agent response with an
empty selected agent, consults the transport for no agent at all, and
leaves the turn list of every session unchanged. -/
theorem claim_c6_below_threshold (st : OrchState) (request : String)
    (session_id : Option String) (now : Nat) (fresh : String) (forward : ForwardOutcome)
    (k : String)
    (hFresh : lookupA st.ctx.sessions fresh = none)
    (h : (selectBest (scoresFor st (enrich_query_with_context
          (get_or_create_session st.ctx session_id none now fresh).2
          (get_or_create_session st.ctx session_id none now fresh).1 request))).2
        < (1 / 5 : Rat)) :
    (process_request st request session_id now fresh forward).transportCalled = false ∧
    (process_request st request session_id now fresh forward).selectedAgentId = "" ∧
    (process_request st request session_id now fresh forward).response = noAgentResponse ∧
    (process_request st request session_id now fresh forward).success = true ∧
    turnsOf (process_request st request session_id now fresh forward).ctxOut.sessions k
      = turnsOf st.ctx.sessions k := by
  have hsel : (analyze_request st (enrich_query_with_context
      (get_or_create_session st.ctx session_id none now fresh).2
      (get_or_create_session st.ctx session_id none now fresh).1 request)).selected
      = none := by
    rw [analyze_request, if_pos h]
  rw [process_request]
  simp only [hsel]
  refine ⟨trivial, trivial, trivial, trivial, ?_⟩
  exact turnsOf_get_or_create st.ctx session_id none now fresh k hFresh

/-- Claim C6 (witness): the empty registry declines the query hello,
makes no transport call and appends nothing. -/
theorem claim_c6_witness :
    (process_request stEmptyFx ("hello") none 0 freshFx
        (ForwardOutcome.ok (""))).transportCalled = false ∧
    (process_request stEmptyFx ("hello") none 0 freshFx
        (ForwardOutcome.ok (""))).selectedAgentId = "" ∧
    (process_request stEmptyFx ("hello") none 0 freshFx
        (ForwardOutcome.ok (""))).response = noAgentResponse ∧
    (process_request stEmptyFx ("hello") none 0 freshFx
        (ForwardOutcome.ok (""))).success = true ∧
    turnsOf (process_request stEmptyFx ("hello") none 0 freshFx
        (ForwardOutcome.ok (""))).ctxOut.sessions ("s1")
      = turnsOf stEmptyFx.ctx.sessions ("s1") :=
  claim_c6_below_threshold stEmptyFx ("hello") none 0 freshFx (ForwardOutcome.ok (""))
    ("s1") (by decide) (by decide)

/-! ## Claims C2 and C3 -/

/-- Appending a turn to an existing session grows its turn list by
exactly one. -/
theorem turnsOf_add_turn_length (ctx : CtxState) (sid q an resp : String) (conf : Rat)
    (now : Nat) (fresh : String)
    (hs : (lookupA ctx.sessions sid).isSome = true) :
    (turnsOf (add_conversation_turn ctx sid q an resp conf now fresh).sessions sid).length
      = (turnsOf ctx.sessions sid).length + 1 := by
  obtain ⟨s, hs2⟩ := Option.isSome_iff_exists.mp hs
  rw [turnsOf_add_conversation_turn ctx sid q an resp conf now fresh s hs2]
  simp

/-- Claim C2 (counterexample): with every poll answering a working
state, the transport returns the timeout message as a plain ok value
(not an error), and the facade reports success with status completed
and appends a conversation turn - against the claim, which demands a
TIMEOUT error and no appended turn. -/
theorem claim_c2_counterexample :
    forward_request_to_agent ("http://localhost:8002") SendResult.taskEnvelope
        scriptAllWorkingFx = ForwardOutcome.ok timeoutTextFx ∧
    (process_request stMathFx ("math") none 0 freshFx
        (ForwardOutcome.ok timeoutTextFx)).success = true ∧
    (process_request stMathFx ("math") none 0 freshFx
        (ForwardOutcome.ok timeoutTextFx)).status = "completed" ∧
    (process_request stMathFx ("math") none 0 freshFx
        (ForwardOutcome.ok timeoutTextFx)).errorMsg = none ∧
    (turnsOf (process_request stMathFx ("math") none 0 freshFx
        (ForwardOutcome.ok timeoutTextFx)).ctxOut.sessions freshFx).length = 1 := by
  refine ⟨by decide, by decide, by decide, by decide, by decide⟩

/-- Claim C2 (amended): when the polling budget of 120 one-second
polls elapses with every poll still non-terminal, the transport
returns the literal string about the 120 seconds timeout as an
ordinary successful value; the facade then treats it like any agent
reply - success, status completed, the routed response text - and
appends a conversation turn to the session. -/
theorem claim_c2_amended (script : Nat → PollReply) (endpoint : String) (st : OrchState)
    (request : String) (session_id : Option String) (now : Nat) (fresh : String)
    (aid : String) (card : AgentCard)
    (hpoll : ∀ i, i < 120 → pollContinues (script i) = true)
    (hsel : (analyze_request st (enrich_query_with_context
        (get_or_create_session st.ctx session_id none now fresh).2
        (get_or_create_session st.ctx session_id none now fresh).1 request)).selected
        = some aid)
    (hcard : lookupA st.agents aid = some card) :
    forward_request_to_agent endpoint SendResult.taskEnvelope script
        = ForwardOutcome.ok timeoutTextFx ∧
    (process_request st request session_id now fresh
        (ForwardOutcome.ok timeoutTextFx)).success = true ∧
    (process_request st request session_id now fresh
        (ForwardOutcome.ok timeoutTextFx)).status = "completed" ∧
    (process_request st request session_id now fresh
        (ForwardOutcome.ok timeoutTextFx)).response
      = "Routed to " ++ card.name ++ ": " ++ timeoutTextFx ∧
    (turnsOf (process_request st request session_id now fresh
        (ForwardOutcome.ok timeoutTextFx)).ctxOut.sessions
        (get_or_create_session st.ctx session_id none now fresh).1).length
      = (turnsOf (get_or_create_session st.ctx session_id none now fresh).2.sessions
          (get_or_create_session st.ctx session_id none now fresh).1).length + 1 := by
  refine ⟨?_, ?_⟩
  · show pollTask script 0 120 = ForwardOutcome.ok timeoutTextFx
    exact pollTask_timeout script 120 0 (fun i _ h2 => hpoll i (by omega))
  · rw [process_request]
    simp only [hsel, hcard]
    refine ⟨trivial, trivial, trivial, ?_⟩
    exact turnsOf_add_turn_length _ _ _ _ _ _ _ _
      (lookupA_get_or_create_isSome st.ctx session_id none now fresh)

/-- Claim C2 (witness for the amended theorem): the concrete one-agent
scenario with an all-working poll script. -/
theorem claim_c2_amended_witness :
    forward_request_to_agent ("http://localhost:8002") SendResult.taskEnvelope
        scriptAllWorkingFx = ForwardOutcome.ok timeoutTextFx ∧
    (process_request stMathFx ("math") none 0 freshFx
        (ForwardOutcome.ok timeoutTextFx)).success = true ∧
    (process_request stMathFx ("math") none 0 freshFx
        (ForwardOutcome.ok timeoutTextFx)).status = "completed" ∧
    (process_request stMathFx ("math") none 0 freshFx
        (ForwardOutcome.ok timeoutTextFx)).response
      = "Routed to " ++ cardMathFx.name ++ ": " ++ timeoutTextFx ∧
    (turnsOf (process_request stMathFx ("math") none 0 freshFx
        (ForwardOutcome.ok timeoutTextFx)).ctxOut.sessions
        (get_or_create_session stMathFx.ctx none none 0 freshFx).1).length
      = (turnsOf (get_or_create_session stMathFx.ctx none none 0 freshFx).2.sessions
          (get_or_create_session stMathFx.ctx none none 0 freshFx).1).length + 1 :=
  claim_c2_amended scriptAllWorkingFx ("http://localhost:8002") stMathFx ("math") none 0
    freshFx ("Math Agent") cardMathFx (fun _ _ => rfl) (by decide) (by decide)

/-- Claim C3 (counterexample): a transport error (a raised connection
failure) does not become a structured error payload on the REST
surface; the endpoint answers success with no error field, and the
response body is the routing-information fallback. -/
theorem claim_c3_counterexample :
    (process_query stMathFx ("math") none 0 freshFx
        (ForwardOutcome.raised ("connection refused"))).success = true ∧
    (process_query stMathFx ("math") none 0 freshFx
        (ForwardOutcome.raised ("connection refused"))).error = none ∧
    strStartsWith (process_query stMathFx ("math") none 0 freshFx
        (ForwardOutcome.raised ("connection refused"))).response
      ("Smart Routing Decision") = true ∧
    (process_request stMathFx ("math") none 0 freshFx
        (ForwardOutcome.raised ("connection refused"))).status = "routing_only" := by
  refine ⟨by decide, by decide, by decide, by decide⟩

/-- Claim C3 (amended): when the forward call raises a transport
error, the route node catches it and falls back to a routing
information response with status routing_only; the facade reports the
query as a success carrying that body (and appends a turn), and the
REST endpoint maps it to a successful payload with no error field. -/
theorem claim_c3_amended (st : OrchState) (request : String) (session_id : Option String)
    (now : Nat) (fresh : String) (msg : String) (aid : String) (card : AgentCard)
    (hsel : (analyze_request st (enrich_query_with_context
        (get_or_create_session st.ctx session_id none now fresh).2
        (get_or_create_session st.ctx session_id none now fresh).1 request)).selected
        = some aid)
    (hcard : lookupA st.agents aid = some card)
    (htrim : strTrim request = request) (hne : request ≠ "") :
    (process_request st request session_id now fresh
        (ForwardOutcome.raised msg)).success = true ∧
    (process_request st request session_id now fresh
        (ForwardOutcome.raised msg)).status = "routing_only" ∧
    (process_request st request session_id now fresh
        (ForwardOutcome.raised msg)).response
      = routingFallback card
          (analyze_request st (enrich_query_with_context
            (get_or_create_session st.ctx session_id none now fresh).2
            (get_or_create_session st.ctx session_id none now fresh).1 request)).confidence
          (analyze_request st (enrich_query_with_context
            (get_or_create_session st.ctx session_id none now fresh).2
            (get_or_create_session st.ctx session_id none now fresh).1 request)).reasoning
          msg ∧
    (turnsOf (process_request st request session_id now fresh
        (ForwardOutcome.raised msg)).ctxOut.sessions
        (get_or_create_session st.ctx session_id none now fresh).1).length
      = (turnsOf (get_or_create_session st.ctx session_id none now fresh).2.sessions
          (get_or_create_session st.ctx session_id none now fresh).1).length + 1 ∧
    (process_query st request session_id now fresh
        (ForwardOutcome.raised msg)).success = true ∧
    (process_query st request session_id now fresh
        (ForwardOutcome.raised msg)).error = none := by
  have hmain : (process_request st request session_id now fresh
      (ForwardOutcome.raised msg)).success = true ∧
      (process_request st request session_id now fresh
        (ForwardOutcome.raised msg)).status = "routing_only" ∧
      (process_request st request session_id now fresh
        (ForwardOutcome.raised msg)).response
        = routingFallback card
            (analyze_request st (enrich_query_with_context
              (get_or_create_session st.ctx session_id none now fresh).2
              (get_or_create_session st.ctx session_id none now fresh).1 request)).confidence
            (analyze_request st (enrich_query_with_context
              (get_or_create_session st.ctx session_id none now fresh).2
              (get_or_create_session st.ctx session_id none now fresh).1 request)).reasoning
            msg ∧
      (turnsOf (process_request st request session_id now fresh
          (ForwardOutcome.raised msg)).ctxOut.sessions
          (get_or_create_session st.ctx session_id none now fresh).1).length
        = (turnsOf (get_or_create_session st.ctx session_id none now fresh).2.sessions
            (get_or_create_session st.ctx session_id none now fresh).1).length + 1 := by
    rw [process_request]
    simp only [hsel, hcard]
    refine ⟨trivial, trivial, trivial, ?_⟩
    exact turnsOf_add_turn_length _ _ _ _ _ _ _ _
      (lookupA_get_or_create_isSome st.ctx session_id none now fresh)
  refine ⟨hmain.1, hmain.2.1, hmain.2.2.1, hmain.2.2.2, ?_, ?_⟩
  · rw [process_query, htrim, if_neg hne, if_pos hmain.1]
  · rw [process_query, htrim, if_neg hne, if_pos hmain.1]

/-- Claim C3 (witness for the amended theorem): the concrete one-agent
scenario with a raised connection failure. -/
theorem claim_c3_amended_witness :
    (process_request stMathFx ("math") none 0 freshFx
        (ForwardOutcome.raised ("connection refused"))).success = true ∧
    (process_request stMathFx ("math") none 0 freshFx
        (ForwardOutcome.raised ("connection refused"))).status = "routing_only" ∧
    (process_request stMathFx ("math") none 0 freshFx
        (ForwardOutcome.raised ("connection refused"))).response
      = routingFallback cardMathFx
          (analyze_request stMathFx (enrich_query_with_context
            (get_or_create_session stMathFx.ctx none none 0 freshFx).2
            (get_or_create_session stMathFx.ctx none none 0 freshFx).1 ("math"))).confidence
          (analyze_request stMathFx (enrich_query_with_context
            (get_or_create_session stMathFx.ctx none none 0 freshFx).2
            (get_or_create_session stMathFx.ctx none none 0 freshFx).1 ("math"))).reasoning
          ("connection refused") ∧
    (turnsOf (process_request stMathFx ("math") none 0 freshFx
        (ForwardOutcome.raised ("connection refused"))).ctxOut.sessions
        (get_or_create_session stMathFx.ctx none none 0 freshFx).1).length
      = (turnsOf (get_or_create_session stMathFx.ctx none none 0 freshFx).2.sessions
          (get_or_create_session stMathFx.ctx none none 0 freshFx).1).length + 1 ∧
    (process_query stMathFx ("math") none 0 freshFx
        (ForwardOutcome.raised ("connection refused"))).success = true ∧
    (process_query stMathFx ("math") none 0 freshFx
        (ForwardOutcome.raised ("connection refused"))).error = none :=
  claim_c3_amended stMathFx ("math") none 0 freshFx ("connection refused") ("Math Agent")
    cardMathFx (by decide) (by decide) (by decide) (by decide)
